import Mathlib

/-
Shallow embedding of the AmazonPinterstBot front-end session and polling
logic: the ApiClient in src/lib/api.ts, the dashboard polling callback in
src/pages/dashboard.tsx, and the landing-page form defaults.

Modelling conventions:
  - The embedding models the browser environment, where window and
    localStorage exist: the Local Session Store is a pair of optional keys.
  - Each network operation is a pure state-transition function taking the
    client state and the environment-supplied outcome of the single HTTP
    exchange (each operation consumes exactly one outcome: no retry).
  - A failed exchange carries the optional response status
    (error.response?.status, absent on transport failure) and the optional
    structured body message (error.response?.data?.detail).
  - JobStatus.created_at is modelled as the parsed numeric timestamp, i.e.
    the value of new Date(created_at).getTime().
  - JavaScript truthiness of a nullable string (null and the empty string
    are falsy) is modelled explicitly by the function truthy.
-/

/-- Credentials interface from src/lib/api.ts. -/
structure Credentials where
  pinterest_token : String
  amazon_tag : String
  session_password : String
deriving DecidableEq

/-- AutomationConfig interface from src/lib/api.ts. Numeric fields that the
source treats as fractional (min_rating, price bounds) are rationals. -/
structure AutomationConfig where
  categories : List String
  max_products_per_category : Nat
  post_interval_seconds : Nat
  daily_pin_limit : Nat
  min_rating : Rat
  min_reviews : Nat
  price_range_min : Rat
  price_range_max : Rat
deriving DecidableEq

/-- The closed job-state enumeration of the JobStatus interface. -/
inductive JobState where
  | queued
  | running
  | completed
  | failed
  | cancelled
deriving DecidableEq

/-- JobStatus interface (the fields the session and polling logic reads);
created_at and updated_at are the parsed numeric timestamps. -/
structure JobStatus where
  job_id : String
  status : JobState
  created_at : Nat
  updated_at : Nat
deriving DecidableEq

/-- One Pinterest board entry of a SessionResponse. -/
structure Board where
  id : String
  name : String
deriving DecidableEq

/-- SessionResponse interface from src/lib/api.ts. -/
structure SessionResponse where
  session_id : String
  encrypted_credentials : String
  pinterest_boards : List Board
  message : String
deriving DecidableEq

/-- JobResponse interface from src/lib/api.ts. -/
structure JobResponse where
  job_id : String
  status : String
  message : String
deriving DecidableEq

/-- The response envelope of GET /api/jobs: a jobs field holding the list. -/
structure JobsEnvelope where
  jobs : List JobStatus
deriving DecidableEq

/-- The response envelope of GET /api/privacy-policy. -/
structure PolicyEnvelope where
  privacy_policy : String
deriving DecidableEq

/-- The data of a failed HTTP exchange: error.response?.status is absent on
transport failure, error.response?.data?.detail is the structured body
message when the server sent one. -/
structure HttpFailure where
  status : Option Nat
  detail : Option String
deriving DecidableEq

/-- Outcome of a single HTTP exchange, supplied by the environment. -/
inductive HttpResult (α : Type) where
  | ok : α → HttpResult α
  | err : HttpFailure → HttpResult α

/-- The Local Session Store: the two localStorage keys the client uses. -/
structure LocalStore where
  session_id : Option String
  encrypted_credentials : Option String
deriving DecidableEq

/-- The store after both keys are removed. -/
def clearedStore : LocalStore :=
  { session_id := none, encrypted_credentials := none }

/-- ApiClient state: the in-memory sessionId field plus the Local Session
Store it reads and writes. -/
structure ClientState where
  sessionId : Option String
  store : LocalStore
deriving DecidableEq

/-- Client state with no in-memory session and an empty store. -/
def clearedClient : ClientState :=
  { sessionId := none, store := clearedStore }

/-- JavaScript truthiness of a nullable string: null and the empty string
are falsy, every other string is truthy. -/
def truthy : Option String → Bool
  | none => false
  | some v => decide (v ≠ "")

/-- The request interceptor: if this.sessionId is truthy the outgoing
request gets an Authorization header carrying the bearer token. -/
def bearerHeader (s : ClientState) : Option String :=
  match s.sessionId with
  | some sid => if sid = "" then none else some ("Bearer " ++ sid)
  | none => none

/-- The part of an outgoing request the interceptors determine. -/
structure ApiRequest where
  authorization : Option String
deriving DecidableEq

/-- The request produced by the request interceptor from the current state. -/
def outboundRequest (s : ClientState) : ApiRequest :=
  { authorization := bearerHeader s }

/-- The response interceptor on a failed exchange: a 401 status drops the
in-memory session id and removes both localStorage keys; any other failure
leaves the state unchanged. The failure itself is re-raised unchanged. -/
def onFailure (s : ClientState) (e : HttpFailure) : ClientState :=
  if e.status = some 401 then clearedClient else s

/-- The full response interceptor: successes pass through with no state
change, failures go through onFailure; in both cases the result is handed
to the caller unchanged (Promise.reject with the original error). -/
def apiExchange {α : Type} (s : ClientState) (r : HttpResult α) :
    ClientState × HttpResult α :=
  match r with
  | .ok a => (s, .ok a)
  | .err e => (onFailure s e, .err e)

/-- The catch-block message: error.response?.data?.detail when present and
non-empty (the empty string is falsy under the JavaScript or-else), the
fixed fallback otherwise. -/
def detailOr (e : HttpFailure) (fallback : String) : String :=
  match e.detail with
  | some d => if d = "" then fallback else d
  | none => fallback

/-- ApiClient.startSession: on success assign this.sessionId and write both
localStorage keys from the response; on failure re-raise as a normalized
error with the detail-or-fallback message (a 401 failure has already been
processed by the response interceptor). -/
def startSession (s : ClientState) (r : HttpResult SessionResponse) :
    ClientState × Except String SessionResponse :=
  match r with
  | .ok resp =>
      ({ sessionId := some resp.session_id,
         store := { session_id := some resp.session_id,
                    encrypted_credentials := some resp.encrypted_credentials } },
       Except.ok resp)
  | .err e =>
      (onFailure s e, Except.error (detailOr e "Failed to start session"))

/-- The catch block of endSession: the error is logged (console.error) and
not re-raised, so any outcome of the try block becomes success. -/
def swallow (t : Except String Unit) : Except String Unit :=
  match t with
  | Except.ok _ => Except.ok ()
  | Except.error _ => Except.ok ()

/-- ApiClient.endSession: the delete request is issued only when
this.sessionId is truthy; any failure is logged and swallowed by the catch
block; the finally block always nulls the session id and removes both
localStorage keys. Returns the final state, whether a request was issued,
and the outcome visible to the caller. -/
def endSession (s : ClientState) (r : HttpResult Unit) :
    ClientState × Bool × Except String Unit :=
  let issued := truthy s.sessionId
  let tryOutcome : Except String Unit :=
    if issued then
      match r with
      | .ok _ => Except.ok ()
      | .err _ => Except.error "Error ending session"
    else Except.ok ()
  (clearedClient, issued, swallow tryOutcome)

/-- ApiClient.startAutomation. -/
def startAutomation (s : ClientState) (r : HttpResult JobResponse) :
    ClientState × Except String JobResponse :=
  match r with
  | .ok resp => (s, Except.ok resp)
  | .err e =>
      (onFailure s e, Except.error (detailOr e "Failed to start automation"))

/-- ApiClient.getJobStatus. -/
def getJobStatus (_jobId : String) (s : ClientState) (r : HttpResult JobStatus) :
    ClientState × Except String JobStatus :=
  match r with
  | .ok resp => (s, Except.ok resp)
  | .err e =>
      (onFailure s e, Except.error (detailOr e "Failed to get job status"))

/-- ApiClient.getUserJobs: unwraps the jobs field of the envelope. -/
def getUserJobs (s : ClientState) (r : HttpResult JobsEnvelope) :
    ClientState × Except String (List JobStatus) :=
  match r with
  | .ok resp => (s, Except.ok resp.jobs)
  | .err e =>
      (onFailure s e, Except.error (detailOr e "Failed to get user jobs"))

/-- ApiClient.cancelJob. -/
def cancelJob (_jobId : String) (s : ClientState) (r : HttpResult Unit) :
    ClientState × Except String Unit :=
  match r with
  | .ok _ => (s, Except.ok ())
  | .err e =>
      (onFailure s e, Except.error (detailOr e "Failed to cancel job"))

/-- ApiClient.getPrivacyPolicy: the catch block ignores the body and always
raises the fixed message. -/
def getPrivacyPolicy (s : ClientState) (r : HttpResult PolicyEnvelope) :
    ClientState × Except String String :=
  match r with
  | .ok resp => (s, Except.ok resp.privacy_policy)
  | .err e => (onFailure s e, Except.error "Failed to load privacy policy")

/-- ApiClient.healthCheck: the catch block ignores the body and always
raises the fixed message; the success payload is opaque. -/
def healthCheck (s : ClientState) (r : HttpResult String) :
    ClientState × Except String String :=
  match r with
  | .ok d => (s, Except.ok d)
  | .err e => (onFailure s e, Except.error "Health check failed")

/-- ApiClient.isAuthenticated: this.sessionId is not null. -/
def isAuthenticated (s : ClientState) : Bool :=
  s.sessionId.isSome

/-- ApiClient.getSessionId. -/
def getSessionId (s : ClientState) : Option String :=
  s.sessionId

/-- ApiClient.getStoredCredentials. -/
def getStoredCredentials (s : ClientState) : Option String :=
  s.store.encrypted_credentials

/-- The ApiClient constructor: load the saved session id from the store
when it is truthy; the store itself is not written. -/
def initClient (st : LocalStore) : ClientState :=
  { sessionId := if truthy st.session_id then st.session_id else none,
    store := st }

/-- One client operation applied with an arbitrary environment outcome:
the transitions an ApiClient state can take. -/
inductive ClientStep : ClientState → ClientState → Prop where
  | startSessionStep (s : ClientState) (r : HttpResult SessionResponse) :
      ClientStep s (startSession s r).1
  | endSessionStep (s : ClientState) (r : HttpResult Unit) :
      ClientStep s (endSession s r).1
  | startAutomationStep (s : ClientState) (r : HttpResult JobResponse) :
      ClientStep s (startAutomation s r).1
  | getJobStatusStep (j : String) (s : ClientState) (r : HttpResult JobStatus) :
      ClientStep s (getJobStatus j s r).1
  | getUserJobsStep (s : ClientState) (r : HttpResult JobsEnvelope) :
      ClientStep s (getUserJobs s r).1
  | cancelJobStep (j : String) (s : ClientState) (r : HttpResult Unit) :
      ClientStep s (cancelJob j s r).1
  | getPrivacyPolicyStep (s : ClientState) (r : HttpResult PolicyEnvelope) :
      ClientStep s (getPrivacyPolicy s r).1
  | healthCheckStep (s : ClientState) (r : HttpResult String) :
      ClientStep s (healthCheck s r).1

/-- States reachable from the constructor run on a given persisted store,
by any sequence of client operations with any environment outcomes. -/
inductive ClientReach (st : LocalStore) : ClientState → Prop where
  | init : ClientReach st (initClient st)
  | step {s s2 : ClientState} :
      ClientReach st s → ClientStep s s2 → ClientReach st s2

/-- Both persisted keys are present together or absent together. -/
def pairedKeys (st : LocalStore) : Prop :=
  st.session_id.isSome = st.encrypted_credentials.isSome

/-- The comparator of the dashboard job sort: job a precedes job b exactly
when b was created no later than a (descending creation time; the source
comparator is dateOf b minus dateOf a). -/
def jobMoreRecent (a b : JobStatus) : Bool :=
  decide (b.created_at ≤ a.created_at)

/-- The dashboard sort: the fetched list ordered by the comparator. -/
def sortJobsDesc (l : List JobStatus) : List JobStatus :=
  l.mergeSort jobMoreRecent

/-- Whether the pattern occurs at the head of the character list. -/
def takesAt : List Char → List Char → Bool
  | _, [] => true
  | [], _ :: _ => false
  | c :: cs, p :: ps => decide (c = p) && takesAt cs ps

/-- Whether the pattern occurs anywhere in the character list. -/
def subIn : List Char → List Char → Bool
  | [], pat => takesAt [] pat
  | c :: cs, pat => takesAt (c :: cs) pat || subIn cs pat

/-- JavaScript String.prototype.includes: substring containment. -/
def strIncludes (s pat : String) : Bool :=
  subIn s.data pat.data

/-- The component state of the dashboard page that loadJobs touches. -/
structure DashboardState where
  jobs : List JobStatus
  loading : Bool
  refreshing : Bool
deriving DecidableEq

/-- The loadJobs callback of src/pages/dashboard.tsx: on success replace
the job list with the fetched list sorted by creation time descending; on
failure show the fixed toast unless the raised message contains the
substring 401; the finally block drops the loading and refreshing flags.
The third component is the toast message, when one is shown. -/
def loadJobs (cs : ClientState) (ds : DashboardState)
    (r : HttpResult JobsEnvelope) :
    ClientState × DashboardState × Option String :=
  match getUserJobs cs r with
  | (cs1, Except.ok userJobs) =>
      (cs1,
       { jobs := sortJobsDesc userJobs, loading := false, refreshing := false },
       none)
  | (cs1, Except.error msg) =>
      (cs1,
       { ds with loading := false, refreshing := false },
       if strIncludes msg "401" then none else some "Failed to load jobs")

/-- defaultAutomationConfig from src/lib/api.ts. -/
def defaultAutomationConfig : AutomationConfig :=
  { categories := ["electronics", "home", "fashion", "health"],
    max_products_per_category := 5,
    post_interval_seconds := 300,
    daily_pin_limit := 50,
    min_rating := 4,
    min_reviews := 10,
    price_range_min := 5,
    price_range_max := 500 }

/-- FormValues interface of the landing page. -/
structure FormValues where
  pinterest_token : String
  amazon_tag : String
  session_password : String
  categories : List String
  max_products_per_category : Nat
  post_interval_seconds : Nat
  daily_pin_limit : Nat
  min_rating : Rat
  min_reviews : Nat
  price_range_min : Rat
  price_range_max : Rat
deriving DecidableEq

/-- The useForm defaultValues of the landing page: every config field is
initialised from defaultAutomationConfig; the credential fields start from
whatever the user types (they have no default). -/
def formDefaultValues (p a w : String) : FormValues :=
  { pinterest_token := p,
    amazon_tag := a,
    session_password := w,
    categories := defaultAutomationConfig.categories,
    max_products_per_category := defaultAutomationConfig.max_products_per_category,
    post_interval_seconds := defaultAutomationConfig.post_interval_seconds,
    daily_pin_limit := defaultAutomationConfig.daily_pin_limit,
    min_rating := defaultAutomationConfig.min_rating,
    min_reviews := defaultAutomationConfig.min_reviews,
    price_range_min := defaultAutomationConfig.price_range_min,
    price_range_max := defaultAutomationConfig.price_range_max }

/-- The config object built by the onSubmit handler from the form data. -/
def submittedConfig (d : FormValues) : AutomationConfig :=
  { categories := d.categories,
    max_products_per_category := d.max_products_per_category,
    post_interval_seconds := d.post_interval_seconds,
    daily_pin_limit := d.daily_pin_limit,
    min_rating := d.min_rating,
    min_reviews := d.min_reviews,
    price_range_min := d.price_range_min,
    price_range_max := d.price_range_max }

/-- The credentials object built by the onSubmit handler. -/
def submittedCredentials (d : FormValues) : Credentials :=
  { pinterest_token := d.pinterest_token,
    amazon_tag := d.amazon_tag,
    session_password := d.session_password }

/- Helper lemmas shared by the claim theorems. -/

/-- The catch block of endSession turns every outcome into success. -/
theorem swallow_ok (t : Except String Unit) : swallow t = Except.ok () := by
  cases t <;> rfl

/-- The response interceptor applied to the cleared client leaves it
cleared, whatever the failure. -/
theorem onFailure_of_cleared (e : HttpFailure) :
    onFailure clearedClient e = clearedClient := by
  unfold onFailure
  split <;> rfl

/-- The response interceptor preserves the paired-keys property of the
store on any failure. -/
theorem pairedKeys_onFailure {s : ClientState} (e : HttpFailure)
    (hp : pairedKeys s.store) : pairedKeys (onFailure s e).store := by
  unfold onFailure
  split
  · exact rfl
  · exact hp

/-- C1: a response carrying a 401 authorization-failure status, on any
operation, makes the client null its in-memory session id and remove both
persisted keys, and the interceptor hands the original failure back to the
caller unchanged (single attempt, no retry); from the cleared state the
outgoing request carries no bearer header, and it still carries none after
any further operation other than a new startSession. -/
theorem authFailure_clears_and_unauthenticates
    (s : ClientState) (j : String) (e : HttpFailure) (h : e.status = some 401) :
    (∀ (α : Type),
        apiExchange (α := α) s (HttpResult.err e)
          = (clearedClient, HttpResult.err e))
    ∧ (startSession s (HttpResult.err e)).1 = clearedClient
    ∧ (startAutomation s (HttpResult.err e)).1 = clearedClient
    ∧ (getJobStatus j s (HttpResult.err e)).1 = clearedClient
    ∧ (getUserJobs s (HttpResult.err e)).1 = clearedClient
    ∧ (cancelJob j s (HttpResult.err e)).1 = clearedClient
    ∧ (getPrivacyPolicy s (HttpResult.err e)).1 = clearedClient
    ∧ (healthCheck s (HttpResult.err e)).1 = clearedClient
    ∧ (endSession s (HttpResult.err (α := Unit) e)).1 = clearedClient
    ∧ outboundRequest clearedClient = { authorization := none }
    ∧ (∀ r, bearerHeader ((startAutomation clearedClient r).1) = none)
    ∧ (∀ j2 r, bearerHeader ((getJobStatus j2 clearedClient r).1) = none)
    ∧ (∀ r, bearerHeader ((getUserJobs clearedClient r).1) = none)
    ∧ (∀ j2 r, bearerHeader ((cancelJob j2 clearedClient r).1) = none)
    ∧ (∀ r, bearerHeader ((getPrivacyPolicy clearedClient r).1) = none)
    ∧ (∀ r, bearerHeader ((healthCheck clearedClient r).1) = none)
    ∧ (∀ r, bearerHeader ((endSession clearedClient r).1) = none) := by
  have h401 : ∀ (s2 : ClientState), onFailure s2 e = clearedClient := by
    intro s2
    simp [onFailure, h]
  refine ⟨fun α => ?_, ?_, ?_, ?_, ?_, ?_, ?_, ?_, rfl, rfl,
    ?_, ?_, ?_, ?_, ?_, ?_, fun r => rfl⟩
  · simp [apiExchange, h401]
  · simp [startSession, h401]
  · simp [startAutomation, h401]
  · simp [getJobStatus, h401]
  · simp [getUserJobs, h401]
  · simp [cancelJob, h401]
  · simp [getPrivacyPolicy, h401]
  · simp [healthCheck, h401]
  · intro r
    cases r with
    | ok a => rfl
    | err e2 =>
        show bearerHeader (onFailure clearedClient e2) = none
        rw [onFailure_of_cleared]
        exact rfl
  · intro j2 r
    cases r with
    | ok a => rfl
    | err e2 =>
        show bearerHeader (onFailure clearedClient e2) = none
        rw [onFailure_of_cleared]
        exact rfl
  · intro r
    cases r with
    | ok a => rfl
    | err e2 =>
        show bearerHeader (onFailure clearedClient e2) = none
        rw [onFailure_of_cleared]
        exact rfl
  · intro j2 r
    cases r with
    | ok a => rfl
    | err e2 =>
        show bearerHeader (onFailure clearedClient e2) = none
        rw [onFailure_of_cleared]
        exact rfl
  · intro r
    cases r with
    | ok a => rfl
    | err e2 =>
        show bearerHeader (onFailure clearedClient e2) = none
        rw [onFailure_of_cleared]
        exact rfl
  · intro r
    cases r with
    | ok a => rfl
    | err e2 =>
        show bearerHeader (onFailure clearedClient e2) = none
        rw [onFailure_of_cleared]
        exact rfl

/-- C1 witness: a concrete 401 failure on getUserJobs from a concrete
authenticated state clears the client. -/
theorem authFailure_clears_and_unauthenticates_witness :
    (({ status := some 401, detail := none } : HttpFailure).status = some 401)
    ∧ (getUserJobs
        { sessionId := some "sid",
          store := { session_id := some "sid",
                     encrypted_credentials := some "blob" } }
        (HttpResult.err { status := some 401, detail := none })).1
      = clearedClient :=
  ⟨rfl,
   (authFailure_clears_and_unauthenticates
      { sessionId := some "sid",
        store := { session_id := some "sid",
                   encrypted_credentials := some "blob" } }
      "job-1" { status := some 401, detail := none } rfl).2.2.2.2.1⟩

/-- C2 counterexample: getPrivacyPolicy raises its fixed fallback message
even when the server body carries a structured message, so the claimed
detail extraction does not hold for every operation. -/
theorem getPrivacyPolicy_ignores_detail_cex :
    (getPrivacyPolicy clearedClient
        (HttpResult.err
          { status := some 500, detail := some "Policy backend offline" })).2
      = Except.error "Failed to load privacy policy"
    ∧ ("Failed to load privacy policy" : String) ≠ "Policy backend offline" :=
  ⟨rfl, by decide⟩

/-- C2 (amended): every failing operation raises a normalized error; the
detail-or-fallback message extraction holds for startSession,
startAutomation, getJobStatus, getUserJobs and cancelJob, while
getPrivacyPolicy and healthCheck always raise their fixed fallback message
regardless of the body, and endSession alone swallows its failure. -/
theorem apiOps_error_messages
    (s : ClientState) (j : String) (e : HttpFailure) :
    (startSession s (HttpResult.err e)).2
        = Except.error (detailOr e "Failed to start session")
    ∧ (startAutomation s (HttpResult.err e)).2
        = Except.error (detailOr e "Failed to start automation")
    ∧ (getJobStatus j s (HttpResult.err e)).2
        = Except.error (detailOr e "Failed to get job status")
    ∧ (getUserJobs s (HttpResult.err e)).2
        = Except.error (detailOr e "Failed to get user jobs")
    ∧ (cancelJob j s (HttpResult.err e)).2
        = Except.error (detailOr e "Failed to cancel job")
    ∧ (getPrivacyPolicy s (HttpResult.err e)).2
        = Except.error "Failed to load privacy policy"
    ∧ (healthCheck s (HttpResult.err e)).2
        = Except.error "Health check failed"
    ∧ (endSession s (HttpResult.err (α := Unit) e)).2.2 = Except.ok () :=
  ⟨rfl, rfl, rfl, rfl, rfl, rfl, rfl, swallow_ok _⟩

/-- C3 (failing run): GET /api/jobs fails with status 401 and body detail
Session expired; getUserJobs rethrows that detail as the message, the
message does not contain the substring 401, so loadJobs shows the fixed
toast even though the failure is an authorization failure. -/
theorem loadJobs_toasts_on_auth_failure :
    (loadJobs
        { sessionId := some "sid",
          store := { session_id := some "sid",
                     encrypted_credentials := some "blob" } }
        { jobs := [], loading := true, refreshing := false }
        (HttpResult.err
          { status := some 401, detail := some "Session expired" })).2.2
      = some "Failed to load jobs" := by
  rfl

/-- C4: after every successful fetch the displayed job list is exactly the
fetched list sorted by creation time descending: the new list fully
replaces the old one, is a permutation of the fetch result, and is
pairwise ordered most recently created first. -/
theorem loadJobs_success_sorted_replacement
    (cs : ClientState) (ds : DashboardState) (env : JobsEnvelope) :
    (loadJobs cs ds (HttpResult.ok env)).2.1.jobs = sortJobsDesc env.jobs
    ∧ (sortJobsDesc env.jobs).Perm env.jobs
    ∧ (sortJobsDesc env.jobs).Pairwise
        (fun a b => b.created_at ≤ a.created_at) := by
  refine ⟨rfl, List.mergeSort_perm env.jobs jobMoreRecent, ?_⟩
  have hs : (env.jobs.mergeSort jobMoreRecent).Pairwise
      (fun a b => jobMoreRecent a b = true) :=
    List.sorted_mergeSort
      (fun a b c hab hbc => by
        simp only [jobMoreRecent, decide_eq_true_eq] at hab hbc ⊢
        exact le_trans hbc hab)
      (fun a b => by
        simp only [jobMoreRecent, Bool.or_eq_true, decide_eq_true_eq]
        exact le_total b.created_at a.created_at)
      env.jobs
  exact hs.imp (fun hab => by
    simpa [jobMoreRecent, decide_eq_true_eq] using hab)

/-- C5: endSession never raises: the caller-visible outcome is always
success, and in every case (success, server error or transport error) the
final state has no in-memory session id and both persisted keys removed
before endSession returns. -/
theorem endSession_never_raises (s : ClientState) (r : HttpResult Unit) :
    (endSession s r).2.2 = Except.ok ()
    ∧ (endSession s r).1.sessionId = none
    ∧ (endSession s r).1.store.session_id = none
    ∧ (endSession s r).1.store.encrypted_credentials = none :=
  ⟨swallow_ok _, rfl, rfl, rfl⟩

/-- C6: isAuthenticated is the pure predicate that an in-memory session id
is held (it only reads state); it is true right after a successful
startSession, false right after endSession completes, and false right
after any 401 authorization-failure response. -/
theorem isAuthenticated_tracks_session
    (s : ClientState) (resp : SessionResponse) (r : HttpResult Unit)
    (e : HttpFailure) (h : e.status = some 401) :
    isAuthenticated s = s.sessionId.isSome
    ∧ isAuthenticated (startSession s (HttpResult.ok resp)).1 = true
    ∧ isAuthenticated (endSession s r).1 = false
    ∧ isAuthenticated (onFailure s e) = false := by
  refine ⟨rfl, rfl, rfl, ?_⟩
  simp [onFailure, h, isAuthenticated, clearedClient, clearedStore]

/-- C6 witness: the 401 hypothesis and the predicate at concrete inputs. -/
theorem isAuthenticated_tracks_session_witness :
    (({ status := some 401, detail := none } : HttpFailure).status = some 401)
    ∧ isAuthenticated
        (onFailure
          { sessionId := some "sid",
            store := { session_id := some "sid",
                       encrypted_credentials := some "blob" } }
          { status := some 401, detail := none }) = false :=
  ⟨rfl,
   (isAuthenticated_tracks_session
      { sessionId := some "sid",
        store := { session_id := some "sid",
                   encrypted_credentials := some "blob" } }
      { session_id := "sid", encrypted_credentials := "blob",
        pinterest_boards := [], message := "ok" }
      (HttpResult.ok ()) { status := some 401, detail := none }
      rfl).2.2.2⟩

/-- C7: starting from any persisted store whose two keys are paired (both
present or both absent), every reachable client state keeps the two
persisted keys paired: no operation writes or removes one of the keys
without the other. -/
theorem persisted_keys_always_paired (st : LocalStore) (s : ClientState)
    (hp : pairedKeys st) (hr : ClientReach st s) : pairedKeys s.store := by
  induction hr with
  | init => exact hp
  | step hprev hstep ih =>
    cases hstep with
    | startSessionStep s2 r =>
      cases r with
      | ok resp => exact rfl
      | err e2 => exact pairedKeys_onFailure e2 ih
    | endSessionStep s2 r => exact rfl
    | startAutomationStep s2 r =>
      cases r with
      | ok resp => exact ih
      | err e2 => exact pairedKeys_onFailure e2 ih
    | getJobStatusStep j s2 r =>
      cases r with
      | ok resp => exact ih
      | err e2 => exact pairedKeys_onFailure e2 ih
    | getUserJobsStep s2 r =>
      cases r with
      | ok resp => exact ih
      | err e2 => exact pairedKeys_onFailure e2 ih
    | cancelJobStep j s2 r =>
      cases r with
      | ok resp => exact ih
      | err e2 => exact pairedKeys_onFailure e2 ih
    | getPrivacyPolicyStep s2 r =>
      cases r with
      | ok resp => exact ih
      | err e2 => exact pairedKeys_onFailure e2 ih
    | healthCheckStep s2 r =>
      cases r with
      | ok resp => exact ih
      | err e2 => exact pairedKeys_onFailure e2 ih

/-- C7 witness: a concrete paired store and a concrete reachable state, one
successful startSession after the constructor. -/
theorem persisted_keys_always_paired_witness :
    pairedKeys
      ((startSession (initClient clearedStore)
          (HttpResult.ok
            { session_id := "sid", encrypted_credentials := "blob",
              pinterest_boards := [], message := "ok" })).1.store) :=
  persisted_keys_always_paired clearedStore
    (startSession (initClient clearedStore)
        (HttpResult.ok
          { session_id := "sid", encrypted_credentials := "blob",
            pinterest_boards := [], message := "ok" })).1
    rfl
    (ClientReach.step ClientReach.init (ClientStep.startSessionStep _ _))

/-- C8: with no field edited, the submitted config equals the defaults:
categories electronics, home, fashion, health; max_products_per_category
5; post_interval_seconds 300; daily_pin_limit 50; min_rating 4 (that is,
4.0); min_reviews 10; price_range_min 5; price_range_max 500. -/
theorem default_form_submits_defaults (p a w : String) :
    submittedConfig (formDefaultValues p a w)
      = { categories := ["electronics", "home", "fashion", "health"],
          max_products_per_category := 5,
          post_interval_seconds := 300,
          daily_pin_limit := 50,
          min_rating := 4,
          min_reviews := 10,
          price_range_min := 5,
          price_range_max := 500 }
    ∧ submittedConfig (formDefaultValues p a w) = defaultAutomationConfig :=
  ⟨rfl, rfl⟩

/-- C9: a failing startSession other than a 401 leaves the in-memory
session id and both persisted keys exactly as they were and raises the
normalized error; the session id and the keys are assigned only on a
successful response. -/
theorem startSession_atomic_on_failure
    (s : ClientState) (e : HttpFailure) (h : e.status ≠ some 401) :
    (startSession s (HttpResult.err e)).1 = s
    ∧ (startSession s (HttpResult.err e)).2
        = Except.error (detailOr e "Failed to start session")
    ∧ (∀ (resp : SessionResponse),
        (startSession s (HttpResult.ok resp)).1
          = { sessionId := some resp.session_id,
              store := { session_id := some resp.session_id,
                         encrypted_credentials :=
                           some resp.encrypted_credentials } }) := by
  refine ⟨?_, rfl, fun resp => rfl⟩
  simp [startSession, onFailure, h]

/-- C9 witness: a concrete non-401 server failure leaves a concrete state
untouched. -/
theorem startSession_atomic_on_failure_witness :
    (({ status := some 500, detail := some "Invalid Pinterest token" }
        : HttpFailure).status ≠ some 401)
    ∧ (startSession clearedClient
        (HttpResult.err
          { status := some 500,
            detail := some "Invalid Pinterest token" })).1
      = clearedClient :=
  ⟨by decide,
   (startSession_atomic_on_failure clearedClient
      { status := some 500, detail := some "Invalid Pinterest token" }
      (by decide)).1⟩

/-- C10: endSession with no in-memory session id issues no network request
at all, still removes both persisted keys from the local store, and
returns successfully. -/
theorem endSession_without_session
    (s : ClientState) (r : HttpResult Unit) (h : s.sessionId = none) :
    (endSession s r).2.1 = false
    ∧ (endSession s r).1.store.session_id = none
    ∧ (endSession s r).1.store.encrypted_credentials = none
    ∧ (endSession s r).2.2 = Except.ok () := by
  refine ⟨?_, rfl, rfl, swallow_ok _⟩
  show truthy s.sessionId = false
  rw [h]
  exact rfl

/-- C10 witness: a concrete run with no session id held. -/
theorem endSession_without_session_witness :
    clearedClient.sessionId = none
    ∧ (endSession clearedClient (HttpResult.ok ())).2.1 = false :=
  ⟨rfl,
   (endSession_without_session clearedClient (HttpResult.ok ()) rfl).1⟩
